import Mathlib

/-!
Verification of the avatars SDK section-playback state machine.

The definitions below are a shallow embedding of the TypeScript sources:
`src/utils/Types.ts`, `src/state/StateManager.ts`, `src/events/EventManager.ts`,
`src/video/VideoManager.ts`, `src/voiceAgent/VoiceAgentManager.ts`,
`src/avatarsData.ts` and the `AvatarVideoManager` lifecycle controller.
Numeric times (fractional seconds) are modelled as rationals.
-/

set_option linter.unusedVariables false

namespace AvatarsSDK

/-- Type of a video section (source: `SectionType` in src/utils/Types.ts). -/
inductive SectionType
  | speaking
  | listening
deriving DecidableEq, Repr

/-- A video section with start and end times in fractional seconds
(source: `Section` in src/utils/Types.ts). The source field `end` is named
`endTime` here because `end` is a Lean keyword. -/
structure Section where
  start : ℚ
  endTime : ℚ
deriving DecidableEq, Repr

/-- The currently selected section, a section type plus an index into that
type's section list (source: `CurrentSection` in src/utils/Types.ts). -/
structure CurrentSection where
  type : SectionType
  index : Nat
deriving DecidableEq, Repr

/-- Agent status, `SectionType | 'idle'` in the source
(field `agentStatus` of StateManager). -/
inductive AgentStatus
  | idle
  | status (t : SectionType)
deriving DecidableEq, Repr

/-- Configuration for an avatar (source: `AvatarConfig` in src/utils/Types.ts). -/
structure AvatarConfig where
  videoPath : String
  speakingSections : List Section
  listeningSections : List Section
deriving DecidableEq, Repr

/-- The static avatar configuration table (source: src/avatarsData.ts),
keyed by lower-case avatar name. -/
def avatarsSDKData : List (String × AvatarConfig) :=
  [ ("john",
      ⟨"https://hamsa-public-new.s3.eu-west-1.amazonaws.com/avatar/john.mp4",
        [⟨0, 26⟩], [⟨28, 45⟩]⟩),
    ("khalid",
      ⟨"https://hamsa-public-new.s3.eu-west-1.amazonaws.com/avatar/khalid.mp4",
        [⟨0, 23⟩], [⟨25, 43⟩]⟩),
    ("layla",
      ⟨"https://hamsa-public-new.s3.eu-west-1.amazonaws.com/avatar/layla.mp4",
        [⟨0, 39⟩], [⟨45, 60⟩]⟩),
    ("natali",
      ⟨"https://hamsa-public-new.s3.eu-west-1.amazonaws.com/avatar/natali.mp4",
        [⟨0, 39⟩], [⟨48, 67⟩]⟩) ]

/-- The ternary `type === 'speaking' ? config.speakingSections :
config.listeningSections` used throughout EventManager. -/
def sectionsFor (cfg : AvatarConfig) (ty : SectionType) : List Section :=
  match ty with
  | SectionType.speaking => cfg.speakingSections
  | SectionType.listening => cfg.listeningSections

/-- A command the EventManager issues to the VideoManager
(calls to `videoManager.playSection` and `videoManager.pause`). -/
inductive Action
  | playSection (s : Section)
  | pause
deriving DecidableEq, Repr

/-- Combined mutable state touched by EventManager and StateManager:
`StateManager.agentStatus`, `StateManager.currentSection` and the
EventManager's private `currentSection` copy. -/
structure EMState where
  agentStatus : AgentStatus
  smCurrentSection : Option CurrentSection
  emCurrentSection : Option CurrentSection
deriving DecidableEq, Repr

/-- Initial state: StateManager starts with status `'idle'` and a null
current section; EventManager's private copy starts null too. -/
def initEMState : EMState := ⟨AgentStatus.idle, none, none⟩

/-- `EventManager.selectAndPlaySection`. The draw `Math.random()` is the
parameter `q`; the source computes `Math.floor(Math.random() * sections.length)`,
embedded as `(Int.floor (q * length)).toNat`. The source records the selection
in both its private field and the StateManager before the `if (section)`
truthiness check, and pauses without recording anything when the list is empty. -/
def selectAndPlaySection (cfg : AvatarConfig) (ty : SectionType) (q : ℚ)
    (st : EMState) : EMState × List Action :=
  let sections := sectionsFor cfg ty
  if sections.length = 0 then
    (st, [Action.pause])
  else
    let randomIndex : Nat := (Int.floor (q * (sections.length : ℚ))).toNat
    let cs : CurrentSection := ⟨ty, randomIndex⟩
    let st' : EMState := { st with emCurrentSection := some cs, smCurrentSection := some cs }
    match sections[randomIndex]? with
    | some s => (st', [Action.playSection s])
    | none => (st', [])

/-- `EventManager.handleSpeaking`: set status to `'speaking'`, then select
and play a speaking section. -/
def handleSpeaking (cfg : AvatarConfig) (q : ℚ) (st : EMState) : EMState × List Action :=
  selectAndPlaySection cfg SectionType.speaking q
    { st with agentStatus := AgentStatus.status SectionType.speaking }

/-- `EventManager.handleListening`: set status to `'listening'`, then select
and play a listening section. -/
def handleListening (cfg : AvatarConfig) (q : ℚ) (st : EMState) : EMState × List Action :=
  selectAndPlaySection cfg SectionType.listening q
    { st with agentStatus := AgentStatus.status SectionType.listening }

/-- `EventManager.handleCallStarted`: same effect as `handleListening`. -/
def handleCallStarted (cfg : AvatarConfig) (q : ℚ) (st : EMState) : EMState × List Action :=
  selectAndPlaySection cfg SectionType.listening q
    { st with agentStatus := AgentStatus.status SectionType.listening }

/-- `EventManager.handleCallEnded`: set status `'idle'`, pause the video. -/
def handleCallEnded (st : EMState) : EMState × List Action :=
  ({ st with agentStatus := AgentStatus.idle }, [Action.pause])

/-- `EventManager.handleError`: set status `'idle'`, pause the video. -/
def handleError (st : EMState) : EMState × List Action :=
  ({ st with agentStatus := AgentStatus.idle }, [Action.pause])

/-- `EventManager.handleSectionEnded`: decide whether to loop the current
section or select a new one. `q` is the random draw consumed if the
agent state changed and a new section must be selected. -/
def handleSectionEnded (cfg : AvatarConfig) (q : ℚ) (st : EMState) : EMState × List Action :=
  match st.emCurrentSection with
  | none => (st, [])
  | some cs =>
    if st.agentStatus = AgentStatus.status cs.type then
      match (sectionsFor cfg cs.type)[cs.index]? with
      | some s => (st, [Action.playSection s])
      | none => (st, [Action.pause])
    else
      match st.agentStatus with
      | AgentStatus.idle => (st, [Action.pause])
      | AgentStatus.status newTy => selectAndPlaySection cfg newTy q st

/-- An event delivered to the EventManager: the five voice agent events it
subscribes to plus the VideoManager's `sectionEnded`. Events whose handler
may draw a random index carry the draw `q`. -/
inductive AgentEvent
  | speaking (q : ℚ)
  | listening (q : ℚ)
  | callStarted (q : ℚ)
  | callEnded
  | error
  | sectionEnded (q : ℚ)
deriving DecidableEq, Repr

/-- Dispatch of one event to its bound handler (the `subscribeToEvents`
wiring of EventManager). -/
def emStep (cfg : AvatarConfig) (st : EMState) : AgentEvent → EMState × List Action
  | AgentEvent.speaking q => handleSpeaking cfg q st
  | AgentEvent.listening q => handleListening cfg q st
  | AgentEvent.callStarted q => handleCallStarted cfg q st
  | AgentEvent.callEnded => handleCallEnded st
  | AgentEvent.error => handleError st
  | AgentEvent.sectionEnded q => handleSectionEnded cfg q st

/-- Run a sequence of events from a state (single-threaded, run-to-completion
handlers), keeping the final state. -/
def emRun (cfg : AvatarConfig) (st : EMState) : List AgentEvent → EMState
  | [] => st
  | e :: es => emRun cfg (emStep cfg st e).1 es

/-- Observable VideoManager state (src/video/VideoManager.ts): the private
`currentSection`, the video element's playback position and paused flag, and
whether the `timeupdate` listener (`onTimeUpdate`) is currently registered.
DOM `addEventListener` with the same listener function is idempotent, so the
registration is a boolean. -/
structure VMState where
  currentSection : Option Section
  currentTime : ℚ
  paused : Bool
  watchArmed : Bool
deriving DecidableEq, Repr

/-- Notification emitted by the VideoManager: the `sectionEnded` event. -/
inductive VMOut
  | sectionEnded
deriving DecidableEq, Repr

/-- An input to the VideoManager: a `playSection` command from the
orchestrator, or the media element advancing its playback position to `t`
and firing a `timeupdate` event. -/
inductive VMEvent
  | playSection (s : Section)
  | timeUpdate (t : ℚ)
deriving DecidableEq, Repr

/-- `VideoManager.handleTimeUpdate`: if a section is current and the playback
position reached or passed its end, pause, remove the `timeupdate` listener,
and emit `sectionEnded`. -/
def handleTimeUpdate (st : VMState) : VMState × List VMOut :=
  match st.currentSection with
  | none => (st, [])
  | some s =>
    if s.endTime ≤ st.currentTime then
      ({ st with paused := true, watchArmed := false }, [VMOut.sectionEnded])
    else
      (st, [])

/-- One VideoManager step. `playSection` records the section, seeks to its
start, starts playback, and removes then re-adds the `timeupdate` listener
(so exactly the new watch is armed). A `timeupdate` event first updates the
playback position, then invokes `handleTimeUpdate` only if the listener is
registered. -/
def vmStep (st : VMState) : VMEvent → VMState × List VMOut
  | VMEvent.playSection s =>
    ({ st with currentSection := some s, currentTime := s.start,
               paused := false, watchArmed := true }, [])
  | VMEvent.timeUpdate t =>
    let st' : VMState := { st with currentTime := t }
    if st'.watchArmed then handleTimeUpdate st' else (st', [])

/-- Run the VideoManager over an event list, recording the outputs of each
step separately. -/
def vmStepsOuts (st : VMState) : List VMEvent → List (List VMOut)
  | [] => []
  | e :: es => (vmStep st e).2 :: vmStepsOuts (vmStep st e).1 es

/-- Modelled from the spec: the behaviour the spec prescribes for the watch
armed by `playRange` (section 4.2) — a single `range finished` notification
fired at the first position update that reaches or passes the range's end
`e`, and nothing afterwards. Used to compare the VideoManager embedding
against the spec's words. -/
def specWatchOuts (e : ℚ) : List ℚ → List (List VMOut)
  | [] => []
  | t :: ts =>
    if e ≤ t then [VMOut.sectionEnded] :: ts.map (fun _ => ([] : List VMOut))
    else ([] : List VMOut) :: specWatchOuts e ts

/-- Error kinds distinguishable at the lifecycle boundary. The `catch` in
`startCall` and `endCall` inspects only whether the error is a DOMException
named AbortError; the unknown-avatar throw site is tagged `configError`. -/
inductive ErrKind
  | configError (avatarName : String)
  | loadError
  | abortError
  | otherError
deriving DecidableEq, Repr

/-- Externally observable side effects of the lifecycle controller
(`AvatarVideoManager` in src/index.ts): its emitted notifications plus the
calls it issues to the video and voice agent collaborators. -/
inductive LcOut
  | loadingChange (isLoading : Bool)
  | onError (e : ErrKind)
  | onAgentStart
  | onAgentEnd
  | constructVideoManager
  | setupVideoCall
  | prefetchCall
  | agentStartCall
  | agentEndCall
  | videoCleanup
  | eventManagerCleanup
  | abortSignal
deriving DecidableEq, Repr

/-- Lifecycle controller state: the `AvatarVideoManager` flags and nullable
fields, plus the `VoiceAgentManager` fields `agentStarted` and
`voiceAgent !== null`. -/
structure AVMState where
  isInitialized : Bool
  isInitializing : Bool
  isCallActive : Bool
  isCleaningUp : Bool
  cleanupInFlight : Bool
  hasAbortController : Bool
  hasStateManager : Bool
  hasVideoManager : Bool
  hasEventManager : Bool
  avatarConfig : Option AvatarConfig
  agentStarted : Bool
  hasVoiceAgent : Bool
deriving DecidableEq, Repr

/-- State of a freshly constructed `AvatarVideoManager` singleton. -/
def initAVMState : AVMState :=
  ⟨false, false, false, false, false, false, false, false, false, none, false, false⟩

/-- Outcomes of the awaited external steps of one setup attempt, plus the
configuration environment: the `avatarsSDKData` lookup table, whether the
API key is non-empty, and how each awaited call settles. `agentStartResult`
is the settlement of `HamsaVoiceAgent.start`. -/
structure SetupEnv where
  configLookup : String → Option AvatarConfig
  apiKeyPresent : Bool
  setupVideoResult : Except ErrKind Unit
  prefetchResult : Except ErrKind Unit
  agentStartResult : Except Unit Unit

/-- Parameters of `startCall` that the embedding uses. -/
structure StartParams where
  avatarName : String
deriving DecidableEq, Repr

/-- `VoiceAgentManager.startAgent`: returns the updated
`(agentStarted, hasVoiceAgent)` pair and the issued calls. If the agent is
already started or the API key is missing it logs and returns. Otherwise it
constructs the agent and awaits its `start`; a failure is caught and logged
inside this method — `agentStarted` is reset to false and NO error
propagates to the caller. -/
def startAgent (apiKeyPresent agentStarted hasVoiceAgent : Bool)
    (result : Except Unit Unit) : Bool × Bool × List LcOut :=
  if agentStarted then (agentStarted, hasVoiceAgent, [])
  else if !apiKeyPresent then (agentStarted, hasVoiceAgent, [])
  else
    match result with
    | Except.ok _ => (true, true, [LcOut.agentStartCall])
    | Except.error _ => (false, true, [LcOut.agentStartCall])

/-- `VoiceAgentManager.endAgent`: if the agent is not started or absent,
logs and returns; otherwise ends it once and clears `agentStarted`. -/
def endAgent (agentStarted hasVoiceAgent : Bool) : Bool × List LcOut :=
  if !agentStarted || !hasVoiceAgent then (agentStarted, [])
  else (false, [LcOut.agentEndCall])

/-- Whether the lifecycle `catch` blocks treat the error as an intentional
abort (`error instanceof DOMException && error.name === 'AbortError'`). -/
def isAbort : ErrKind → Bool
  | ErrKind.abortError => true
  | _ => false

/-- Body of the cleanup promise inside `endCall` (the IIFE at its core).
If initialization is in flight it aborts the abort controller, resets the
flags and emits `loadingChange(false)`; otherwise it performs the full
teardown: EventManager cleanup, VideoManager cleanup, `endAgent`, flag and
field resets, then `onAgentEnd`. -/
def cleanupBody (st : AVMState) : AVMState × List LcOut :=
  if st.isInitializing then
    ({ st with hasAbortController := false, isInitializing := false, isCallActive := false },
      (if st.hasAbortController then [LcOut.abortSignal] else []) ++ [LcOut.loadingChange false])
  else
    let outsEm := if st.hasEventManager then [LcOut.eventManagerCleanup] else []
    let outsVm := if st.hasVideoManager then [LcOut.videoCleanup] else []
    let r := endAgent st.agentStarted st.hasVoiceAgent
    ({ st with hasEventManager := false, hasVideoManager := false,
               agentStarted := r.1,
               isInitialized := false, isCallActive := false,
               hasAbortController := false, hasStateManager := false,
               avatarConfig := none },
      outsEm ++ outsVm ++ r.2 ++ [LcOut.onAgentEnd])

/-- `AvatarVideoManager.endCall`. If a cleanup is already in flight it
returns the existing cleanup promise (this call adds no side effects of its
own); if neither initialized nor initializing it logs and returns; otherwise
it sets `isCleaningUp`, runs the cleanup body, and finally clears
`isCleaningUp` and the stored promise. -/
def endCall (st : AVMState) : AVMState × List LcOut :=
  if st.isCleaningUp && st.cleanupInFlight then (st, [])
  else if !st.isInitialized && !st.isInitializing then (st, [])
  else
    let st1 : AVMState := { st with isCleaningUp := true, cleanupInFlight := true }
    let r := cleanupBody st1
    ({ r.1 with isCleaningUp := false, cleanupInFlight := false }, r.2)

/-- The `catch` block of `startCall`: emit `onError` unless the error is an
abort, reset `isInitializing` and `isCallActive`, emit
`loadingChange(false)`, and call `endCall` unless the error is an abort. -/
def startCallCatch (st : AVMState) (outs : List LcOut) (e : ErrKind) :
    AVMState × List LcOut :=
  let errOuts := if isAbort e then ([] : List LcOut) else [LcOut.onError e]
  let st1 : AVMState := { st with isInitializing := false, isCallActive := false }
  let outs1 := outs ++ errOuts ++ [LcOut.loadingChange false]
  if isAbort e then (st1, outs1)
  else
    let r := endCall st1
    (r.1, outs1 ++ r.2)

/-- `AvatarVideoManager.startCall`. Guards: return if `isCallActive`; set
`isCallActive`; await an in-flight cleanup if one exists (its remaining
effects run to completion here, the model being single-threaded); return
(resetting `isCallActive`) if already initialized or initializing. Then the
abortable setup sequence: create the StateManager and abort controller, emit
`loadingChange(true)`, look up the avatar configuration (throwing if
absent), construct the VideoManager, await `setupVideo`, await
`prefetchVideo`, call `startAgent`, set the success flags, wire and
subscribe the EventManager, and emit `loadingChange(false)` and
`onAgentStart`. Failures of the awaited media steps jump to the catch;
`startAgent` never throws. -/
def startCall (env : SetupEnv) (p : StartParams) (st : AVMState) :
    AVMState × List LcOut :=
  if st.isCallActive then (st, [])
  else
    let st : AVMState := { st with isCallActive := true }
    let awaited : AVMState × List LcOut :=
      if st.isCleaningUp && st.cleanupInFlight then
        let r := cleanupBody st
        ({ r.1 with isCleaningUp := false, cleanupInFlight := false }, r.2)
      else (st, [])
    let st := awaited.1
    if st.isInitialized || st.isInitializing then
      ({ st with isCallActive := false }, awaited.2)
    else
      let st : AVMState := { st with isInitializing := true, hasAbortController := true }
      let outs0 := awaited.2 ++ [LcOut.loadingChange true]
      let st : AVMState := { st with hasStateManager := true }
      match env.configLookup p.avatarName.toLower with
      | none => startCallCatch st outs0 (ErrKind.configError p.avatarName)
      | some cfg =>
        let st : AVMState := { st with avatarConfig := some cfg, hasVideoManager := true }
        let outs1 := outs0 ++ [LcOut.constructVideoManager, LcOut.setupVideoCall]
        match env.setupVideoResult with
        | Except.error e => startCallCatch st outs1 e
        | Except.ok _ =>
          let outs2 := outs1 ++ [LcOut.prefetchCall]
          match env.prefetchResult with
          | Except.error e => startCallCatch st outs2 e
          | Except.ok _ =>
            let ra := startAgent env.apiKeyPresent st.agentStarted st.hasVoiceAgent
              env.agentStartResult
            let st : AVMState := { st with agentStarted := ra.1, hasVoiceAgent := ra.2.1,
                                           isInitialized := true, isCallActive := true,
                                           isInitializing := false, hasEventManager := true }
            (st, outs2 ++ ra.2.2 ++ [LcOut.loadingChange false, LcOut.onAgentStart])

/-- Number of `onError` notifications in an output trace. -/
def errCount (outs : List LcOut) : Nat :=
  outs.countP fun o => match o with | LcOut.onError _ => true | _ => false

/-- Number of media-load side effects (VideoManager construction, `setupVideo`
or `prefetchVideo` calls) in an output trace. -/
def mediaLoadCount (outs : List LcOut) : Nat :=
  outs.countP fun o =>
    match o with
    | LcOut.constructVideoManager => true
    | LcOut.setupVideoCall => true
    | LcOut.prefetchCall => true
    | _ => false

/-- Number of external voice-agent start calls in an output trace. -/
def agentStartCount (outs : List LcOut) : Nat :=
  outs.countP fun o => match o with | LcOut.agentStartCall => true | _ => false

/-- Number of external voice-agent end calls in an output trace. -/
def agentEndCount (outs : List LcOut) : Nat :=
  outs.countP fun o => match o with | LcOut.agentEndCall => true | _ => false

/-- Number of VideoManager disposals in an output trace. -/
def videoCleanupCount (outs : List LcOut) : Nat :=
  outs.countP fun o => match o with | LcOut.videoCleanup => true | _ => false

/-- A state from which a setup attempt actually proceeds: no call active, not
initialized, not initializing, no teardown in flight. -/
def FreshStart (st : AVMState) : Prop :=
  st.isCallActive = false ∧ st.isInitialized = false ∧
  st.isInitializing = false ∧ st.isCleaningUp = false

/-- A small avatar profile used to instantiate theorems on concrete inputs
(the spec's Scenario A profile: one speaking range 0..10, one listening
range 10..20). -/
def demoConfig : AvatarConfig := ⟨"demo", [⟨0, 10⟩], [⟨10, 20⟩]⟩

/-- The draw `Math.floor(q * n)` lands strictly below `n` whenever
`0 ≤ q < 1` and `n > 0`, mirroring the range of `Math.random()`. -/
lemma floor_rand_lt (q : ℚ) (n : Nat) (h0 : 0 ≤ q) (h1 : q < 1) (hn : 0 < n) :
    (Int.floor (q * (n : ℚ))).toNat < n := by
  have hnq : (0 : ℚ) < (n : ℚ) := by exact_mod_cast hn
  have hq : q * (n : ℚ) < (n : ℚ) := by nlinarith
  have h2 : Int.floor (q * (n : ℚ)) < (n : ℤ) := by
    rw [Int.floor_lt]
    exact_mod_cast hq
  have h3 : (0 : ℤ) ≤ Int.floor (q * (n : ℚ)) := Int.floor_nonneg.mpr (by positivity)
  omega

/-- Behaviour of `selectAndPlaySection` under the `Math.random()` range
contract: on an empty candidate list it pauses and changes nothing; on a
non-empty list it records an in-bounds selection in both state copies and
plays exactly the entry at that index. -/
lemma selectAndPlaySection_spec (cfg : AvatarConfig) (ty : SectionType) (q : ℚ)
    (st : EMState) (h0 : 0 ≤ q) (h1 : q < 1) :
    (sectionsFor cfg ty = [] →
      selectAndPlaySection cfg ty q st = (st, [Action.pause])) ∧
    (sectionsFor cfg ty ≠ [] →
      ∃ i s, i < (sectionsFor cfg ty).length ∧ (sectionsFor cfg ty)[i]? = some s ∧
        selectAndPlaySection cfg ty q st =
          ({ st with emCurrentSection := some ⟨ty, i⟩, smCurrentSection := some ⟨ty, i⟩ },
            [Action.playSection s])) := by
  constructor
  · intro h
    simp [selectAndPlaySection, h]
  · intro h
    have hn : 0 < (sectionsFor cfg ty).length := List.length_pos.mpr h
    have hlt : (Int.floor (q * ((sectionsFor cfg ty).length : ℚ))).toNat <
        (sectionsFor cfg ty).length := floor_rand_lt q _ h0 h1 hn
    have hs := List.getElem?_eq_getElem hlt
    refine ⟨_, _, hlt, hs, ?_⟩
    simp only [selectAndPlaySection]
    rw [if_neg (Nat.pos_iff_ne_zero.mp hn), hs]

/-- Claim C1: while a section is selected and the agent status still equals
its type, a `sectionEnded` notification makes the orchestrator replay
exactly the entry stored at the selected index via `playSection`, and the
whole state — in particular the selected section — is unchanged. -/
theorem c1_loop_replays_same_range (cfg : AvatarConfig) (st : EMState) (q : ℚ)
    (cs : CurrentSection) (s : Section)
    (hsel : st.emCurrentSection = some cs)
    (hstat : st.agentStatus = AgentStatus.status cs.type)
    (hget : (sectionsFor cfg cs.type)[cs.index]? = some s) :
    emStep cfg st (AgentEvent.sectionEnded q) = (st, [Action.playSection s]) := by
  simp [emStep, handleSectionEnded, hsel, hstat, hget]

/-- Witness for C1 at a concrete state: looping the listening range of the
demo profile. -/
theorem c1_loop_replays_same_range_witness :
    emStep demoConfig
        ⟨AgentStatus.status SectionType.listening,
          some ⟨SectionType.listening, 0⟩, some ⟨SectionType.listening, 0⟩⟩
        (AgentEvent.sectionEnded (1 / 2)) =
      (⟨AgentStatus.status SectionType.listening,
          some ⟨SectionType.listening, 0⟩, some ⟨SectionType.listening, 0⟩⟩,
        [Action.playSection ⟨10, 20⟩]) :=
  c1_loop_replays_same_range demoConfig _ (1 / 2) ⟨SectionType.listening, 0⟩ ⟨10, 20⟩
    rfl rfl rfl

/-- Postcondition of a status transition to `ty` followed by select+play,
as the spec states it: the recorded status equals `ty`; an empty candidate
list yields a pause with the stored selection untouched; a non-empty list
yields an in-bounds recorded selection of type `ty` and a play command on
exactly that entry. -/
def SelectPlayPost (cfg : AvatarConfig) (ty : SectionType) (st : EMState)
    (r : EMState × List Action) : Prop :=
  r.1.agentStatus = AgentStatus.status ty ∧
  (sectionsFor cfg ty = [] →
    r.1.smCurrentSection = st.smCurrentSection ∧ r.2 = [Action.pause]) ∧
  (sectionsFor cfg ty ≠ [] →
    ∃ i s, i < (sectionsFor cfg ty).length ∧ (sectionsFor cfg ty)[i]? = some s ∧
      r.1.smCurrentSection = some ⟨ty, i⟩ ∧ r.2 = [Action.playSection s])

/-- Claim C2: every agent status transition to speaking or listening (the
`speaking`, `listening` and `callStarted` events) records a selection whose
type equals the new status and whose index is in bounds for that status's
section list, then plays that entry; with an empty candidate list nothing is
recorded and the player is paused. `q` is the `Math.random()` draw. -/
theorem c2_transition_selection_in_bounds (cfg : AvatarConfig) (st : EMState)
    (q : ℚ) (h0 : 0 ≤ q) (h1 : q < 1) :
    SelectPlayPost cfg SectionType.speaking st (emStep cfg st (AgentEvent.speaking q)) ∧
    SelectPlayPost cfg SectionType.listening st (emStep cfg st (AgentEvent.listening q)) ∧
    SelectPlayPost cfg SectionType.listening st (emStep cfg st (AgentEvent.callStarted q)) := by
  have key : ∀ (ty : SectionType) (st' : EMState),
      st'.agentStatus = AgentStatus.status ty →
      st'.smCurrentSection = st.smCurrentSection →
      SelectPlayPost cfg ty st (selectAndPlaySection cfg ty q st') := by
    intro ty st' hstat hsm
    obtain ⟨hemp, hne⟩ := selectAndPlaySection_spec cfg ty q st' h0 h1
    refine ⟨?_, ?_, ?_⟩
    · by_cases h : sectionsFor cfg ty = []
      · rw [hemp h]; exact hstat
      · obtain ⟨i, s, hlt, hget, heq⟩ := hne h
        rw [heq]; exact hstat
    · intro h
      rw [hemp h]
      exact ⟨hsm, rfl⟩
    · intro h
      obtain ⟨i, s, hlt, hget, heq⟩ := hne h
      exact ⟨i, s, hlt, hget, by rw [heq], by rw [heq]⟩
  exact ⟨key SectionType.speaking _ rfl rfl, key SectionType.listening _ rfl rfl,
    key SectionType.listening _ rfl rfl⟩

/-- Witness for C2 at a concrete input: the demo profile, the initial state
and the draw one half. -/
theorem c2_transition_selection_in_bounds_witness :
    SelectPlayPost demoConfig SectionType.speaking initEMState
      (emStep demoConfig initEMState (AgentEvent.speaking (1 / 2))) :=
  (c2_transition_selection_in_bounds demoConfig initEMState (1 / 2)
    (by norm_num) (by norm_num)).1

/-- Claim C10: in the loop branch, when the stored index refers to no
existing entry of the matching section list, the handler pauses instead of
playing an undefined range, leaving the state unchanged. -/
theorem c10_loop_branch_guards_missing_entry (cfg : AvatarConfig) (st : EMState)
    (q : ℚ) (cs : CurrentSection)
    (hsel : st.emCurrentSection = some cs)
    (hstat : st.agentStatus = AgentStatus.status cs.type)
    (hget : (sectionsFor cfg cs.type)[cs.index]? = none) :
    emStep cfg st (AgentEvent.sectionEnded q) = (st, [Action.pause]) := by
  simp [emStep, handleSectionEnded, hsel, hstat, hget]

/-- Witness for C10: a stored index past the end of the demo profile's
speaking list makes the handler pause. -/
theorem c10_loop_branch_guards_missing_entry_witness :
    emStep demoConfig
        ⟨AgentStatus.status SectionType.speaking,
          some ⟨SectionType.speaking, 5⟩, some ⟨SectionType.speaking, 5⟩⟩
        (AgentEvent.sectionEnded (1 / 2)) =
      (⟨AgentStatus.status SectionType.speaking,
          some ⟨SectionType.speaking, 5⟩, some ⟨SectionType.speaking, 5⟩⟩,
        [Action.pause]) :=
  c10_loop_branch_guards_missing_entry demoConfig _ (1 / 2) ⟨SectionType.speaking, 5⟩
    rfl rfl rfl

/-- `selectAndPlaySection` writes the same value to the EventManager's
private copy and the StateManager's stored selection (or touches neither). -/
lemma selectAndPlaySection_sync (cfg : AvatarConfig) (ty : SectionType) (q : ℚ)
    (st : EMState) (h : st.emCurrentSection = st.smCurrentSection) :
    (selectAndPlaySection cfg ty q st).1.emCurrentSection =
      (selectAndPlaySection cfg ty q st).1.smCurrentSection := by
  by_cases hl : (sectionsFor cfg ty).length = 0
  · simp [selectAndPlaySection, hl, h]
  · simp only [selectAndPlaySection]
    rw [if_neg hl]
    cases (sectionsFor cfg ty)[(Int.floor (q * ((sectionsFor cfg ty).length : ℚ))).toNat]? <;>
      simp

/-- Every EventManager handler preserves agreement of the two stored copies
of the current selection. -/
lemma emStep_preserves_sync (cfg : AvatarConfig) (st : EMState) (e : AgentEvent)
    (h : st.emCurrentSection = st.smCurrentSection) :
    (emStep cfg st e).1.emCurrentSection = (emStep cfg st e).1.smCurrentSection := by
  cases e with
  | speaking q => exact selectAndPlaySection_sync cfg _ q _ h
  | listening q => exact selectAndPlaySection_sync cfg _ q _ h
  | callStarted q => exact selectAndPlaySection_sync cfg _ q _ h
  | callEnded => exact h
  | error => exact h
  | sectionEnded q =>
    show (handleSectionEnded cfg q st).1.emCurrentSection =
      (handleSectionEnded cfg q st).1.smCurrentSection
    cases hsel : st.emCurrentSection with
    | none => simpa [handleSectionEnded, hsel] using h
    | some cs =>
      by_cases hstat : st.agentStatus = AgentStatus.status cs.type
      · cases hget : (sectionsFor cfg cs.type)[cs.index]? with
        | some s => simpa [handleSectionEnded, hsel, hstat, hget] using h
        | none => simpa [handleSectionEnded, hsel, hstat, hget] using h
      · cases hst : st.agentStatus with
        | idle => simpa [handleSectionEnded, hsel, hstat, hst] using h
        | status newTy =>
          have hne : newTy ≠ cs.type := by
            intro hh
            exact hstat (by rw [hst, hh])
          have hsync := selectAndPlaySection_sync cfg newTy q st h
          simpa [handleSectionEnded, hsel, hstat, hst, hne] using hsync

/-- Agreement of the two selection copies is an invariant of every run from
the initial state. -/
lemma emRun_sync (cfg : AvatarConfig) (evs : List AgentEvent) :
    ∀ st : EMState, st.emCurrentSection = st.smCurrentSection →
      (emRun cfg st evs).emCurrentSection = (emRun cfg st evs).smCurrentSection := by
  induction evs with
  | nil => intro st h; exact h
  | cons e es ih => intro st h; exact ih _ (emStep_preserves_sync cfg st e h)

/-- Claim C9: within a session, the orchestrator's private current-section
record and the Session State's stored selection are always equal — both
start null, and every handler either writes both with the same value or
leaves both unchanged. -/
theorem c9_selected_section_views_agree (cfg : AvatarConfig) (evs : List AgentEvent) :
    (emRun cfg initEMState evs).emCurrentSection =
      (emRun cfg initEMState evs).smCurrentSection :=
  emRun_sync cfg evs initEMState rfl

/-- With the `timeupdate` listener removed, position updates produce no
output and the listener stays removed. -/
lemma vmStepsOuts_disarmed (ts : List ℚ) :
    ∀ st : VMState, st.watchArmed = false →
      vmStepsOuts st (ts.map VMEvent.timeUpdate) = ts.map (fun _ => ([] : List VMOut)) := by
  induction ts with
  | nil => intro st h; rfl
  | cons t ts ih =>
    intro st h
    have hstep : vmStep st (VMEvent.timeUpdate t) = ({ st with currentTime := t }, []) := by
      simp [vmStep, h]
    simp only [List.map_cons, vmStepsOuts, hstep]
    exact congrArg (List.cons []) (ih _ h)

/-- With the watch armed on section `s`, the outputs of a run of position
updates are exactly what the spec prescribes for the watch: one
`sectionEnded` at the first update reaching or passing the end of `s`,
nothing before or after. -/
lemma vmStepsOuts_armed (s : Section) (ts : List ℚ) :
    ∀ st : VMState, st.watchArmed = true → st.currentSection = some s →
      vmStepsOuts st (ts.map VMEvent.timeUpdate) = specWatchOuts s.endTime ts := by
  induction ts with
  | nil => intro st h1 h2; rfl
  | cons t ts ih =>
    intro st h1 h2
    by_cases hle : s.endTime ≤ t
    · have hstep : vmStep st (VMEvent.timeUpdate t) =
          ({ st with currentTime := t, paused := true, watchArmed := false },
            [VMOut.sectionEnded]) := by
        simp [vmStep, handleTimeUpdate, h1, h2, hle]
      simp only [List.map_cons, vmStepsOuts, hstep, specWatchOuts, if_pos hle]
      exact congrArg (List.cons [VMOut.sectionEnded]) (vmStepsOuts_disarmed ts _ rfl)
    · have hstep : vmStep st (VMEvent.timeUpdate t) = ({ st with currentTime := t }, []) := by
        simp [vmStep, handleTimeUpdate, h1, h2, hle]
      simp only [List.map_cons, vmStepsOuts, hstep, specWatchOuts, if_neg hle]
      exact congrArg (List.cons []) (ih _ h1 h2)

/-- Claim C6: from any VideoManager state, a `playSection` call emits
nothing itself, disarms whatever watch was armed before and arms exactly one
watch for the new range: over any following run of position updates the
per-step outputs equal the spec's watch behaviour — a single `sectionEnded`
fired at the first update that reaches or passes the new range's end, never
more than once, never against a stale range's boundary. -/
theorem c6_play_range_arms_single_watch (st : VMState) (s : Section) (ts : List ℚ) :
    vmStepsOuts st (VMEvent.playSection s :: ts.map VMEvent.timeUpdate) =
      ([] : List VMOut) :: specWatchOuts s.endTime ts := by
  simp only [vmStepsOuts, vmStep]
  exact congrArg (List.cons []) (vmStepsOuts_armed s ts _ rfl rfl)

/-- Claim C5: calling `startCall` while a call is active, or while already
initialized or initializing (with no teardown in flight), returns with the
state unchanged and no external side effects at all — no media load, no
agent start, no error, not even a loading notification. -/
theorem c5_reentrant_start_is_noop (env : SetupEnv) (p : StartParams) (st : AVMState)
    (h : st.isCallActive = true ∨
      (st.isCleaningUp = false ∧ (st.isInitialized = true ∨ st.isInitializing = true))) :
    startCall env p st = (st, []) := by
  obtain ⟨ii, iin, ica, icu, cif, habc, hsmf, hvmf, hemf, cfgo, ast, hvaf⟩ := st
  rcases h with h | ⟨hcu, hinit⟩
  · have hca : ica = true := h
    subst hca
    simp [startCall]
  · have hcu' : icu = false := hcu
    subst hcu'
    cases ica with
    | true => simp [startCall]
    | false =>
      have h1 : (ii || iin) = true := by
        rcases hinit with h | h
        · have hii : ii = true := h
          simp [hii]
        · have hin : iin = true := h
          simp [hin]
      simp [startCall, h1]

/-- Witness for C5: a start against an active session changes nothing. -/
theorem c5_reentrant_start_is_noop_witness :
    startCall
        ⟨fun n => avatarsSDKData.lookup n, true, Except.ok (), Except.ok (), Except.ok ()⟩
        ⟨"john"⟩
        ⟨true, false, true, false, false, false, true, true, true, some demoConfig, true, true⟩ =
      (⟨true, false, true, false, false, false, true, true, true, some demoConfig, true, true⟩,
        []) :=
  c5_reentrant_start_is_noop _ _ _ (Or.inl rfl)

/-- Claim C4: from an active session, `endCall` runs exactly one teardown —
the VideoManager is disposed once and the voice agent ended once — and an
immediately following `endCall` performs nothing further; and any `endCall`
issued while a cleanup is already in flight returns the in-flight cleanup's
promise, adding no side effects of its own. -/
theorem c4_end_call_idempotent (st : AVMState) :
    (st.isInitialized = true → st.isInitializing = false → st.isCleaningUp = false →
      st.hasVideoManager = true → st.agentStarted = true → st.hasVoiceAgent = true →
      videoCleanupCount (endCall st).2 = 1 ∧ agentEndCount (endCall st).2 = 1 ∧
        endCall (endCall st).1 = ((endCall st).1, [])) ∧
    (st.isCleaningUp = true → st.cleanupInFlight = true → endCall st = (st, [])) := by
  constructor
  · intro hii hin hcu hvm hag hva
    have hmain : endCall st =
        ({ st with hasEventManager := false, hasVideoManager := false,
                   agentStarted := false, isInitialized := false, isCallActive := false,
                   hasAbortController := false, hasStateManager := false,
                   avatarConfig := none, isCleaningUp := false, cleanupInFlight := false },
          (if st.hasEventManager then [LcOut.eventManagerCleanup] else []) ++
            [LcOut.videoCleanup] ++ [LcOut.agentEndCall] ++ [LcOut.onAgentEnd]) := by
      simp [endCall, cleanupBody, endAgent, hii, hin, hcu, hvm, hag, hva]
    rw [hmain]
    refine ⟨?_, ?_, ?_⟩
    · by_cases hem : st.hasEventManager = true <;>
        simp [videoCleanupCount, hem, List.countP_append, List.countP_cons]
    · by_cases hem : st.hasEventManager = true <;>
        simp [agentEndCount, hem, List.countP_append, List.countP_cons]
    · simp [endCall, hin]
  · intro hcu hcif
    simp [endCall, hcu, hcif]

/-- Witness for C4 at a concrete active session state. -/
theorem c4_end_call_idempotent_witness :
    videoCleanupCount (endCall
        ⟨true, false, true, false, false, false, true, true, true, some demoConfig, true, true⟩).2
      = 1 ∧
    agentEndCount (endCall
        ⟨true, false, true, false, false, false, true, true, true, some demoConfig, true, true⟩).2
      = 1 ∧
    endCall (endCall
        ⟨true, false, true, false, false, false, true, true, true, some demoConfig, true, true⟩).1 =
      ((endCall
        ⟨true, false, true, false, false, false, true, true, true, some demoConfig, true, true⟩).1,
        []) :=
  (c4_end_call_idempotent _).1 rfl rfl rfl rfl rfl rfl

/-- Claim C7: starting with an avatar name absent from the configuration
(looked up lower-cased) emits exactly the loading-start notification, one
error notification carrying the configuration error, and the loading-end
notification — no VideoManager construction, no media load or prefetch is
attempted, and the session is not marked active. -/
theorem c7_unknown_avatar_config_error (env : SetupEnv) (p : StartParams)
    (st : AVMState) (hf : FreshStart st)
    (hlook : env.configLookup p.avatarName.toLower = none) :
    errCount (startCall env p st).2 = 1 ∧
    mediaLoadCount (startCall env p st).2 = 0 ∧
    (startCall env p st).2 =
      [LcOut.loadingChange true, LcOut.onError (ErrKind.configError p.avatarName),
        LcOut.loadingChange false] ∧
    (startCall env p st).1.isInitialized = false := by
  obtain ⟨hca, hii, hin, hcu⟩ := hf
  have hmain : (startCall env p st).2 =
      [LcOut.loadingChange true, LcOut.onError (ErrKind.configError p.avatarName),
        LcOut.loadingChange false] := by
    simp [startCall, startCallCatch, endCall, isAbort, hca, hii, hin, hcu, hlook]
  have hstate : (startCall env p st).1.isInitialized = false := by
    simp [startCall, startCallCatch, endCall, isAbort, hca, hii, hin, hcu, hlook]
  exact ⟨by rw [hmain]; rfl, by rw [hmain]; rfl, hmain, hstate⟩

/-- Witness for C7: a configuration table holding no avatar at all, so the
name Bob is not configured. -/
theorem c7_unknown_avatar_config_error_witness :
    errCount (startCall
        ⟨fun _ => none, true, Except.ok (), Except.ok (), Except.ok ()⟩
        ⟨"Bob"⟩ initAVMState).2 = 1 ∧
    mediaLoadCount (startCall
        ⟨fun _ => none, true, Except.ok (), Except.ok (), Except.ok ()⟩
        ⟨"Bob"⟩ initAVMState).2 = 0 ∧
    (startCall
        ⟨fun _ => none, true, Except.ok (), Except.ok (), Except.ok ()⟩
        ⟨"Bob"⟩ initAVMState).2 =
      [LcOut.loadingChange true, LcOut.onError (ErrKind.configError "Bob"),
        LcOut.loadingChange false] ∧
    (startCall
        ⟨fun _ => none, true, Except.ok (), Except.ok (), Except.ok ()⟩
        ⟨"Bob"⟩ initAVMState).1.isInitialized = false :=
  c7_unknown_avatar_config_error _ _ _ ⟨rfl, rfl, rfl, rfl⟩ rfl

/-- Claim C8: an abort of an in-flight setup is silent. If an awaited media
step of `startCall` rejects with the abort error (video setup, or prefetch),
the attempt emits no error notification and emits `loadingChange(false)`;
and the abort initiator — `endCall` hitting an initializing session — emits
no error notification either, fires `loadingChange(false)`, and performs no
full teardown (no agent end, no media disposal). -/
theorem c8_abort_rolls_back_silently (env : SetupEnv) (p : StartParams)
    (st st2 : AVMState) (hf : FreshStart st)
    (hcfg : ∃ cfg, env.configLookup p.avatarName.toLower = some cfg)
    (habort : env.setupVideoResult = Except.error ErrKind.abortError ∨
      (env.setupVideoResult = Except.ok () ∧
        env.prefetchResult = Except.error ErrKind.abortError))
    (h2i : st2.isInitializing = true) (h2c : st2.isCleaningUp = false) :
    (errCount (startCall env p st).2 = 0 ∧
      LcOut.loadingChange false ∈ (startCall env p st).2) ∧
    (errCount (endCall st2).2 = 0 ∧
      LcOut.loadingChange false ∈ (endCall st2).2 ∧
      agentEndCount (endCall st2).2 = 0 ∧
      videoCleanupCount (endCall st2).2 = 0) := by
  obtain ⟨hca, hii, hin, hcu⟩ := hf
  obtain ⟨cfg, hlook⟩ := hcfg
  constructor
  · rcases habort with hsv | ⟨hsv, hpf⟩
    · have hmain : (startCall env p st).2 =
          [LcOut.loadingChange true, LcOut.constructVideoManager, LcOut.setupVideoCall,
            LcOut.loadingChange false] := by
        simp [startCall, startCallCatch, isAbort, hca, hii, hin, hcu, hlook, hsv]
      rw [hmain]
      exact ⟨rfl, by simp⟩
    · have hmain : (startCall env p st).2 =
          [LcOut.loadingChange true, LcOut.constructVideoManager, LcOut.setupVideoCall,
            LcOut.prefetchCall, LcOut.loadingChange false] := by
        simp [startCall, startCallCatch, isAbort, hca, hii, hin, hcu, hlook, hsv, hpf]
      rw [hmain]
      exact ⟨rfl, by simp⟩
  · by_cases hab : st2.hasAbortController = true
    · have hmain : (endCall st2).2 = [LcOut.abortSignal, LcOut.loadingChange false] := by
        simp [endCall, cleanupBody, h2i, h2c, hab]
      rw [hmain]
      exact ⟨rfl, by simp, rfl, rfl⟩
    · rw [Bool.not_eq_true] at hab
      have hmain : (endCall st2).2 = [LcOut.loadingChange false] := by
        simp [endCall, cleanupBody, h2i, h2c, hab]
      rw [hmain]
      exact ⟨rfl, by simp, rfl, rfl⟩

/-- Witness for C8: a setup aborted during video setup, and an `endCall`
against an initializing session. -/
theorem c8_abort_rolls_back_silently_witness :
    (errCount (startCall
        ⟨fun _ => some demoConfig, true, Except.error ErrKind.abortError,
          Except.ok (), Except.ok ()⟩ ⟨"demo"⟩ initAVMState).2 = 0 ∧
      LcOut.loadingChange false ∈ (startCall
        ⟨fun _ => some demoConfig, true, Except.error ErrKind.abortError,
          Except.ok (), Except.ok ()⟩ ⟨"demo"⟩ initAVMState).2) ∧
    (errCount (endCall
        ⟨false, true, true, false, false, true, true, true, false,
          some demoConfig, false, true⟩).2 = 0 ∧
      LcOut.loadingChange false ∈ (endCall
        ⟨false, true, true, false, false, true, true, true, false,
          some demoConfig, false, true⟩).2 ∧
      agentEndCount (endCall
        ⟨false, true, true, false, false, true, true, true, false,
          some demoConfig, false, true⟩).2 = 0 ∧
      videoCleanupCount (endCall
        ⟨false, true, true, false, false, true, true, true, false,
          some demoConfig, false, true⟩).2 = 0) :=
  c8_abort_rolls_back_silently _ _ _ _ ⟨rfl, rfl, rfl, rfl⟩ ⟨demoConfig, rfl⟩
    (Or.inl rfl) rfl rfl

/-- Environment in which every setup step succeeds except the external voice
agent start, whose rejection `VoiceAgentManager.startAgent` catches and
swallows. -/
def envAgentFail : SetupEnv :=
  ⟨fun _ => some demoConfig, true, Except.ok (), Except.ok (), Except.error ()⟩

/-- Counterexample to claim C3 as stated: with every media step succeeding
but the voice agent start failing, `startCall` surfaces no error
notification, performs no teardown, and still marks the session initialized
and emits `onAgentStart` — because `startAgent` swallows the failure instead
of propagating it. -/
theorem c3_counterexample_agent_failure_swallowed :
    envAgentFail.agentStartResult = Except.error () ∧
    (startCall envAgentFail ⟨"demo"⟩ initAVMState).1.isInitialized = true ∧
    (startCall envAgentFail ⟨"demo"⟩ initAVMState).1.agentStarted = false ∧
    errCount (startCall envAgentFail ⟨"demo"⟩ initAVMState).2 = 0 ∧
    agentEndCount (startCall envAgentFail ⟨"demo"⟩ initAVMState).2 = 0 ∧
    videoCleanupCount (startCall envAgentFail ⟨"demo"⟩ initAVMState).2 = 0 ∧
    LcOut.onAgentStart ∈ (startCall envAgentFail ⟨"demo"⟩ initAVMState).2 := by
  refine ⟨rfl, ?_, ?_, ?_, ?_, ?_, ?_⟩ <;>
    simp [startCall, startAgent, envAgentFail, initAVMState,
      errCount, agentEndCount, videoCleanupCount]

/-- Rollback observables of a failed setup attempt: exactly one error
notification, and the session left not initialized, not initializing, with
no call active. -/
def RollbackPost (r : AVMState × List LcOut) : Prop :=
  errCount r.2 = 1 ∧ r.1.isInitialized = false ∧ r.1.isInitializing = false ∧
    r.1.isCallActive = false

/-- Claim C3 as amended: every non-abort failure of profile lookup, video
setup or video prefetch yields exactly one error notification and a session
left not initialized, not initializing, and not call-active (the `endCall`
invoked from the catch finds the flags already cleared and tears down
nothing further); and the session is marked initialized only when lookup,
video setup and prefetch all succeeded. A voice-agent start failure is
swallowed inside `startAgent` and is not a failure of the setup sequence. -/
theorem c3_amended_setup_failure_rollback (env : SetupEnv) (p : StartParams)
    (st : AVMState) (hf : FreshStart st) :
    (env.configLookup p.avatarName.toLower = none →
      RollbackPost (startCall env p st)) ∧
    (∀ cfg e, env.configLookup p.avatarName.toLower = some cfg →
      env.setupVideoResult = Except.error e → isAbort e = false →
      RollbackPost (startCall env p st)) ∧
    (∀ cfg e, env.configLookup p.avatarName.toLower = some cfg →
      env.setupVideoResult = Except.ok () → env.prefetchResult = Except.error e →
      isAbort e = false → RollbackPost (startCall env p st)) ∧
    ((startCall env p st).1.isInitialized = true →
      (∃ cfg, env.configLookup p.avatarName.toLower = some cfg) ∧
        env.setupVideoResult = Except.ok () ∧ env.prefetchResult = Except.ok ()) := by
  obtain ⟨hca, hii, hin, hcu⟩ := hf
  refine ⟨?_, ?_, ?_, ?_⟩
  · intro hlook
    refine ⟨?_, ?_, ?_, ?_⟩ <;>
      simp [startCall, startCallCatch, endCall, isAbort, errCount,
        hca, hii, hin, hcu, hlook]
  · intro cfg e hlook hsv hab
    refine ⟨?_, ?_, ?_, ?_⟩ <;>
      simp [startCall, startCallCatch, endCall, errCount,
        hca, hii, hin, hcu, hlook, hsv, hab]
  · intro cfg e hlook hsv hpf hab
    refine ⟨?_, ?_, ?_, ?_⟩ <;>
      simp [startCall, startCallCatch, endCall, errCount,
        hca, hii, hin, hcu, hlook, hsv, hpf, hab]
  · intro hinit
    cases hlook : env.configLookup p.avatarName.toLower with
    | none =>
      have hfalse : (startCall env p st).1.isInitialized = false := by
        simp [startCall, startCallCatch, endCall, isAbort, hca, hii, hin, hcu, hlook]
      rw [hfalse] at hinit
      exact absurd hinit (by decide)
    | some cfg =>
      cases hsv : env.setupVideoResult with
      | error e =>
        have hfalse : (startCall env p st).1.isInitialized = false := by
          by_cases hab : isAbort e = true
          · simp [startCall, startCallCatch, endCall, hca, hii, hin, hcu, hlook, hsv, hab]
          · rw [Bool.not_eq_true] at hab
            simp [startCall, startCallCatch, endCall, hca, hii, hin, hcu, hlook, hsv, hab]
        rw [hfalse] at hinit
        exact absurd hinit (by decide)
      | ok u =>
        cases u
        cases hpf : env.prefetchResult with
        | error e =>
          have hfalse : (startCall env p st).1.isInitialized = false := by
            by_cases hab : isAbort e = true
            · simp [startCall, startCallCatch, endCall, hca, hii, hin, hcu, hlook, hsv,
                hpf, hab]
            · rw [Bool.not_eq_true] at hab
              simp [startCall, startCallCatch, endCall, hca, hii, hin, hcu, hlook, hsv,
                hpf, hab]
          rw [hfalse] at hinit
          exact absurd hinit (by decide)
        | ok u2 =>
          cases u2
          exact ⟨⟨cfg, rfl⟩, rfl, rfl⟩

/-- Witness for the amended C3: a load failure during video setup yields the
rollback observables. -/
theorem c3_amended_setup_failure_rollback_witness :
    RollbackPost (startCall
      ⟨fun _ => some demoConfig, true, Except.error ErrKind.loadError,
        Except.ok (), Except.ok ()⟩ ⟨"demo"⟩ initAVMState) :=
  (c3_amended_setup_failure_rollback _ _ _ ⟨rfl, rfl, rfl, rfl⟩).2.1
    demoConfig ErrKind.loadError rfl rfl rfl

end AvatarsSDK
